import Mathlib

/-!
Shallow embedding of the conversational tool-orchestration engine
(`app/agent/graph.py`, `app/agent/agent_tools.py`, `app/services/mongo.py`,
`app/services/dummy_services.py`).  Pure functions are translated directly;
the Mongo-backed store is explicit state passing over a `Store` value; the
inference backend is an oracle parameter; fallible paths return `Except`.
-/

namespace CommandWall

/-- Python whitespace as removed by `str.strip()` (ASCII range, which covers
every input this program handles). -/
def isPySpace (c : Char) : Bool :=
  c == ' ' || c == '\t' || c == '\n' || c == '\r' || c == '\x0b' || c == '\x0c'

/-- Python `str.strip()`: drop leading and trailing whitespace. -/
def pyStrip (s : String) : String :=
  String.mk (((s.data.dropWhile isPySpace).reverse.dropWhile isPySpace).reverse)

/-- `prefer_new_nonempty` from `app/agent/graph.py`:
`return y if (y and y.strip()) else x`.  Python truthiness of a string is
"non-empty"; the condition is `y ≠ "" ∧ y.strip() ≠ ""`. -/
def prefer_new_nonempty (x y : String) : String :=
  if y ≠ "" ∧ pyStrip y ≠ "" then y else x

/-! ### Heuristic entity-id extraction

`GraphWrapper._extract_client_id` runs `re.search(r"\b([A-Za-z0-9_\-]{4,})\b", text)`
and returns group 1 of the first match, or `None`.  We embed the regex engine's
behaviour on this particular pattern: scan positions left to right; at each
position require a word boundary, then greedily consume the longest run of
class characters (alphanumeric, `_`, `-`), backtracking the run length down to
the minimum 4 until the trailing word boundary holds. -/

/-- Regex word character (`\w` over ASCII-relevant inputs): alphanumeric or `_`. -/
def isWordChar (c : Char) : Bool := c.isAlphanum || c == '_'

/-- Character class of the pattern: `[A-Za-z0-9_\-]`. -/
def isClassChar (c : Char) : Bool := isWordChar c || c == '-'

/-- Whether the character at index `i` exists and is a word character
(out of range counts as non-word, as at string edges). -/
def wordAt (cs : List Char) (i : Nat) : Bool :=
  match cs[i]? with
  | some c => isWordChar c
  | none => false

/-- `\b`: a word boundary between positions `i-1` and `i`
(exactly one side is a word character). -/
def boundary (cs : List Char) (i : Nat) : Bool :=
  (if i = 0 then false else wordAt cs (i - 1)) != wordAt cs i

/-- Length of the maximal run of class characters starting at index `i`
(the greedy extent of `[A-Za-z0-9_\-]{4,}`). -/
def classRunLen (cs : List Char) (i : Nat) : Nat :=
  ((cs.drop i).takeWhile isClassChar).length

/-- Greedy backtracking: the largest `l` with `4 ≤ l ≤ bound` such that a word
boundary holds after `i + l`; `none` if no such length exists. -/
def backtrackLen (cs : List Char) (i : Nat) : Nat → Option Nat
  | 0 => none
  | l + 1 =>
    if l + 1 < 4 then none
    else if boundary cs (i + (l + 1)) then some (l + 1)
    else backtrackLen cs i l

/-- One attempt of the pattern anchored at position `i`:
leading `\b`, then the greedy group with its trailing `\b`. -/
def matchAt (cs : List Char) (i : Nat) : Option Nat :=
  if boundary cs i then backtrackLen cs i (classRunLen cs i) else none

/-- `re.search` driver: try positions `i, i+1, ...` (at most `k` of them),
returning the first position together with its matched length. -/
def searchAux (cs : List Char) (i : Nat) : Nat → Option (Nat × Nat)
  | 0 => none
  | k + 1 =>
    match matchAt cs i with
    | some l => some (i, l)
    | none => searchAux cs (i + 1) k

/-- `GraphWrapper._extract_client_id`: first token of at least 4 identifier
characters (alphanumeric, `_`, `-`) delimited by word boundaries, or `none`. -/
def extractClientId (text : String) : Option String :=
  let cs := text.data
  match searchAux cs 0 (cs.length + 1) with
  | some (i, l) => some (String.mk ((cs.drop i).take l))
  | none => none

/-- The identity-resolution chain of `GraphWrapper.invoke`:
`(client_id or "").strip() or get_active_client_id(...) or self._extract_client_id(...) or ""`.
`explicit` is the caller-supplied id (`None` and `""` behave alike), `stored`
the Session-Store value for the session key, `text` the joined contents of the
windowed messages. -/
def resolveId (explicit stored text : String) : String :=
  if pyStrip explicit ≠ "" then pyStrip explicit
  else if stored ≠ "" then stored
  else (extractClientId text).getD ""

/-! ### KPI documents and the Mongo aggregation of `_fetch_kpis`

`db.kpis` holds documents `{client_id, date, mrr, churn_rate, active_users}`
(seeded in `app/services/mongo.py`).  Python floats are embedded as `Rat`.
`_fetch_kpis` runs the pipeline: match on `client_id`, sort by `date`
descending, limit to `days`, then sort ascending (chronological). -/

structure KpiDoc where
  client_id : String
  date : String
  mrr : Rat
  churn_rate : Rat
  active_users : Int
deriving DecidableEq, Repr

/-- Insertion step of a deterministic sort with Boolean comparator `le`. -/
def insertBy (le : α → α → Bool) (a : α) : List α → List α
  | [] => [a]
  | b :: bs => if le a b then a :: b :: bs else b :: insertBy le a bs

/-- Deterministic insertion sort (models Mongo `$sort` on the `date` key and
Python `sorted`). -/
def sortBy (le : α → α → Bool) (l : List α) : List α :=
  l.foldr (insertBy le) []

/-- `_fetch_kpis`: filter by client, newest-first, take `days`, chronological. -/
def fetchKpis (kpis : List KpiDoc) (client_id : String) (days : Nat) : List KpiDoc :=
  sortBy (fun a b => !(decide (b.date < a.date)))
    ((sortBy (fun a b => !(decide (a.date < b.date)))
      (kpis.filter (fun d => d.client_id == client_id))).take days)

/-- `_status_mrr`; `prev_mrr is None` on the first row becomes `Option`. -/
def statusMrr (prev_mrr : Option Rat) (curr_mrr : Rat) : String :=
  match prev_mrr with
  | none => "green"
  | some p =>
    if p ≤ 0 then "green"
    else
      let change := (curr_mrr - p) / p
      if change < -0.10 then "red"
      else if change < -0.03 then "yellow"
      else "green"

/-- `_status_churn`. -/
def statusChurn (churn : Rat) : String :=
  if churn > 0.05 then "red"
  else if churn > 0.03 then "yellow"
  else "green"

/-- `_status_active_users`. -/
def statusActiveUsers (users : Int) : String :=
  if users < 650 then "red"
  else if users < 750 then "yellow"
  else "green"

/-- `_pct_change`; `first and isfinite(first) and first != 0` collapses to
`first ≠ 0` over the rationals. -/
def pctChange (first last : Rat) : Rat :=
  if first ≠ 0 then ((last - first) / first) * 100 else 0

def ratSum (l : List Rat) : Rat := l.foldl (· + ·) 0

/-- `_linear_slope`; `denom = sum(...) or 1.0` becomes a zero test. -/
def linearSlope (values : List Rat) : Rat :=
  let n := values.length
  if n < 2 then 0
  else
    let xs : List Rat := (List.range n).map (fun x => (x : Rat))
    let mean_x := ratSum xs / (n : Rat)
    let mean_y := ratSum values / (n : Rat)
    let denom0 := ratSum (xs.map (fun x => (x - mean_x) ^ 2))
    let denom := if denom0 == 0 then 1 else denom0
    let num := ratSum ((xs.zip values).map (fun p => (p.1 - mean_x) * (p.2 - mean_y)))
    num / denom

/-- Python `round(x, 2)` (banker's rounding at two decimals). -/
def roundHalfEven (x : Rat) : Int :=
  let f := x.floor
  let frac := x - (f : Rat)
  if frac < 1/2 then f
  else if 1/2 < frac then f + 1
  else if f % 2 = 0 then f else f + 1

def pyRound2 (x : Rat) : Rat := ((roundHalfEven (x * 100) : Int) : Rat) / 100

/-- `MonitoringItem` of `app/schema/monitor.py`.  Its `updated_at` field has
`default_factory=datetime.now`, so every constructed item carries the wall
clock at construction time; we embed timestamps as an abstract `Nat` supplied
by the caller's clock. -/
structure MonitoringItem where
  date : String
  kpi_name : String
  value : Rat
  status : String
  updated_at : Nat
deriving DecidableEq, Repr

/-- Row expansion of `DummyMonitorService.get_client_monitoring_data`,
threading `prev_mrr`; `now` is the clock value stamped into `updated_at`. -/
def monitoringRows (now : Nat) (prev : Option Rat) : List KpiDoc → List MonitoringItem
  | [] => []
  | d :: rest =>
    ⟨d.date, "monthly_recurring_revenue", d.mrr, statusMrr prev d.mrr, now⟩ ::
    ⟨d.date, "churn_rate", d.churn_rate, statusChurn d.churn_rate, now⟩ ::
    ⟨d.date, "active_users", (d.active_users : Rat), statusActiveUsers d.active_users, now⟩ ::
    monitoringRows now (some d.mrr) rest

/-- `DummyMonitorService.get_client_monitoring_data` (5 recent days). -/
def get_client_monitoring_data (now : Nat) (kpis : List KpiDoc) (client_id : String) :
    List MonitoringItem :=
  let docs := fetchKpis kpis client_id 5
  if docs.isEmpty then [] else monitoringRows now none docs

/-- Result shape of `DummyMonitorService.get_monitoring_summary`; the source
returns `{}` for a client with no data, embedded as `none`. -/
structure KpiSummary where
  total_kpis_tracked : Nat
  kpis_in_red_zone : Nat
  key_insight : String
  client_id : String
deriving DecidableEq, Repr

/-- `DummyMonitorService.get_monitoring_summary`. -/
def get_monitoring_summary (kpis : List KpiDoc) (client_id : String) : Option KpiSummary :=
  let docs := fetchKpis kpis client_id 5
  match docs.getLast? with
  | none => none
  | some latest =>
    let prevMrr := (docs.dropLast.getLast?).map (fun d => d.mrr)
    let red : Nat :=
      (if 2 ≤ docs.length ∧ statusMrr prevMrr latest.mrr = "red" then 1 else 0) +
      (if statusChurn latest.churn_rate = "red" then 1 else 0) +
      (if statusActiveUsers latest.active_users = "red" then 1 else 0)
    let insights : List String :=
      (if statusChurn latest.churn_rate ≠ "green"
        then ["Churn is elevated and needs attention"] else []) ++
      (if 2 ≤ docs.length ∧ statusMrr prevMrr latest.mrr ≠ "green"
        then ["MRR dropped recently"] else []) ++
      (if statusActiveUsers latest.active_users ≠ "green"
        then ["Active users are below target"] else [])
    let key_insight :=
      if insights.isEmpty then "Overall health looks stable across recent days."
      else String.intercalate "; " insights
    some ⟨3, red, key_insight, client_id⟩

/-- Result shape of `DummyAnomalyService.detect_anomalies` (`{}` ↦ `none`). -/
structure AnomalyReport where
  anomalies_found : Nat
  critical_kpis : List String
  anomaly_score : Rat
  recommendations : List String
deriving DecidableEq, Repr

/-- Python-set insertion for `critical_kpis.add`. -/
def addIfAbsent (l : List String) (s : String) : List String :=
  if l.contains s then l else l ++ [s]

/-- Scan of `detect_anomalies` over the fetched documents, threading the
previous document, the anomaly count and the critical-KPI set. -/
def anomalyScan (prev : Option KpiDoc) (found : Nat) (crit : List String) :
    List KpiDoc → Nat × List String
  | [] => (found, crit)
  | d :: rest =>
    let s1 : Nat × List String :=
      if d.churn_rate > 0.05 then (found + 1, addIfAbsent crit "churn_rate")
      else (found, crit)
    let s2 : Nat × List String :=
      match prev with
      | some p =>
        if p.mrr > 0 ∧ (d.mrr - p.mrr) / p.mrr < -0.10 then
          (s1.1 + 1, addIfAbsent s1.2 "monthly_recurring_revenue")
        else s1
      | none => s1
    let s3 : Nat × List String :=
      if d.active_users < 650 then (s2.1 + 1, addIfAbsent s2.2 "active_users")
      else s2
    anomalyScan (some d) s3.1 s3.2 rest

/-- `DummyAnomalyService.detect_anomalies`. -/
def detect_anomalies (kpis : List KpiDoc) (client_id : String) : Option AnomalyReport :=
  let docs := fetchKpis kpis client_id 5
  if docs.isEmpty then none
  else
    let fc := anomalyScan none 0 [] docs
    let crits := sortBy (fun a b => !(decide (b < a))) fc.2
    let recs : List String :=
      (if crits.contains "churn_rate"
        then ["Investigate churn cohorts and run win-back campaigns."] else []) ++
      (if crits.contains "monthly_recurring_revenue"
        then ["Analyze revenue segments; review pricing/discount changes."] else []) ++
      (if crits.contains "active_users"
        then ["Re-engage inactive users; launch in-app prompts."] else [])
    let recs :=
      if recs.isEmpty then ["No critical anomalies detected; continue to monitor KPIs."]
      else recs
    some ⟨fc.1, crits, pyRound2 (min 1 ((fc.1 : Rat) / 10)), recs⟩

/-- Result of `DummyAnomalyService.get_trend_analysis`: either the
`{"error": ...}` dict or the analysis dict. -/
inductive TrendResult
  | error (msg : String)
  | ok (kpi_name trend : String) (change_percentage : Rat) (forecast : String)
deriving DecidableEq, Repr

/-- The `aliases` mapping of `get_trend_analysis`. -/
def kpiAlias (kpi_name : String) : Option String :=
  if kpi_name == "monthly_recurring_revenue" then some "mrr"
  else if kpi_name == "churn_rate" then some "churn_rate"
  else if kpi_name == "active_users" then some "active_users"
  else if kpi_name == "mrr" then some "mrr"
  else none

/-- `d.get(metric, 0.0)` for the three numeric fields. -/
def metricValue (metric : String) (d : KpiDoc) : Rat :=
  if metric == "mrr" then d.mrr
  else if metric == "churn_rate" then d.churn_rate
  else if metric == "active_users" then (d.active_users : Rat)
  else 0

/-- `DummyAnomalyService.get_trend_analysis`. -/
def get_trend_analysis (kpis : List KpiDoc) (client_id kpi_name : String) : TrendResult :=
  match kpiAlias kpi_name with
  | none => .error ("Trend analysis for KPI '" ++ kpi_name ++ "' is not available.")
  | some metric =>
    let docs := fetchKpis kpis client_id 5
    if docs.isEmpty then .error ("No KPI data found for client '" ++ client_id ++ "'.")
    else
      let ys := docs.map (metricValue metric)
      if ys.length < 2 then .error "Not enough data points to calculate a trend."
      else
        let slope := linearSlope ys
        let change_pct := pctChange (ys.headD 0) (ys.getLastD 0)
        if metric == "mrr" then
          .ok kpi_name
            (if slope > 0 then "positive_growth" else if slope < 0 then "negative" else "flat")
            (pyRound2 change_pct)
            (if slope > 0 then "MRR is projected to grow if current momentum continues."
             else if slope < 0 then "MRR may decline without intervention."
             else "MRR is stable; expect similar performance near-term.")
        else if metric == "churn_rate" then
          .ok kpi_name
            (if slope > 0 then "negative" else if slope < 0 then "improving" else "flat")
            (pyRound2 change_pct)
            (if slope > 0 then "Churn is accelerating and may impact revenue targets."
             else if slope < 0 then "Churn is improving; maintain retention efforts."
             else "Churn is steady; monitor for shifts.")
        else
          .ok kpi_name
            (if slope > 0 then "up" else if slope < 0 then "down" else "flat")
            (pyRound2 change_pct)
            (if slope > 0 then "Metric trending up."
             else if slope < 0 then "Metric trending down."
             else "Metric appears stable.")

/-! ### Messages, tools and the tool-execution step -/

/-- Arguments of a tool call: `ClientIDInput` or `TrendAnalysisInput`
(`app/agent/agent_tools.py`); anything else is schema-invalid. -/
inductive ToolArgs
  | clientOnly (client_id : String)
  | clientKpi (client_id : String) (kpi_name : String)
deriving DecidableEq, Repr

/-- One tool call requested by the assistant: correlation id, tool name,
arguments. -/
structure ToolCall where
  id : String
  name : String
  args : ToolArgs
deriving DecidableEq, Repr

/-- Payload of a tool-result message: the return value of the matched tool,
or an error payload for an unknown name / schema-invalid arguments. -/
inductive ToolResult
  | summary (r : Option KpiSummary)
  | detailed (r : List MonitoringItem)
  | anomalies (r : Option AnomalyReport)
  | trend (r : TrendResult)
  | invalid (note : String)
deriving DecidableEq, Repr

/-- One conversation message (`langchain_core.messages`): `human`, `ai` with
its `tool_calls` list, `system`, and tool-result messages keyed by
`tool_call_id`. -/
inductive Msg
  | human (content : String)
  | ai (content : String) (tool_calls : List ToolCall)
  | system (content : String)
  | toolResult (tool_call_id : String) (result : ToolResult)
deriving DecidableEq, Repr

/-- `str(m.content)` as used when concatenating message contents; a
tool-result's structured payload is irrelevant there (the windowed input
holds only human/ai messages), rendered as `""`. -/
def Msg.contentOf : Msg → String
  | .human c => c
  | .ai c _ => c
  | .system c => c
  | .toolResult _ _ => ""

/-- Whether `getattr(message, "tool_calls", None)` is truthy: only an
assistant message with a non-empty `tool_calls` list. -/
def Msg.hasToolCalls : Msg → Bool
  | .ai _ calls => !calls.isEmpty
  | _ => false

/-- Tool dispatch of the Tool-Execution Step.  The four registered tools are
from `app/agent/agent_tools.py` (reading the KPI store); the lookup-by-name
and argument-schema validation are the framework `ToolNode`'s contract,
modelled from the spec: unknown names or schema-invalid arguments become an
error payload fed back into the loop, not a crash.  `now` is the clock value
at execution time. -/
def dispatch (now : Nat) (kpis : List KpiDoc) (c : ToolCall) : ToolResult :=
  match c.name, c.args with
  | "get_saas_kpi_summary", .clientOnly cid => .summary (get_monitoring_summary kpis cid)
  | "get_detailed_kpi_data", .clientOnly cid => .detailed (get_client_monitoring_data now kpis cid)
  | "detect_business_anomalies", .clientOnly cid => .anomalies (detect_anomalies kpis cid)
  | "get_kpi_trend_analysis", .clientKpi cid k => .trend (get_trend_analysis kpis cid k)
  | n, _ => .invalid n

/-- The tool-result messages appended for one assistant message carrying
`calls`: one per call, in call order, keyed by the originating call id. -/
def toolResults (now : Nat) (kpis : List KpiDoc) (calls : List ToolCall) : List Msg :=
  calls.map (fun c => Msg.toolResult c.id (dispatch now kpis c))

/-! ### The orchestration loop (`GraphWrapper._build_graph`)

The inference backend is an oracle mapping the built request to either an
assistant reply `(content, tool_calls)` or a failure (exception/timeout).
The graph executor itself is an external framework; modelled from the spec:
state is created fresh per invocation, messages merge by append, the loop
alternates `agent` and `tools` nodes through the `router`, and the repo code
supplies no iteration bound, so the loop is driven by an explicit budget
`fuel` whose exhaustion is the executor's generic recursion abort (an error
raised to the caller, not a produced answer). -/

abbrev Oracle := List Msg → Except String (String × List ToolCall)

/-- `agent_node`'s request: the fixed system prompt, then (when `client_id`
is truthy) the active-client system note, then the state's messages. -/
def buildRequest (client_id : String) (msgs : List Msg) : List Msg :=
  Msg.system "SYSTEM_PROMPT" ::
    ((if client_id ≠ "" then
        [Msg.system ("Active client_id for this session: " ++ client_id)]
      else []) ++ msgs)

/-- Outcome of running the compiled graph. -/
inductive RunResult
  | done (msgs : List Msg)
  | failed (e : String)
  | outOfFuel (msgs : List Msg)
deriving DecidableEq, Repr

/-- The compiled graph's run loop: `agent` node (Decision Step), `router`
(`tool_calls` truthy → `tools`, else `END`), `tools` node (Tool-Execution
Step), edge back to `agent`. -/
def runLoop (oracle : Oracle) (now : Nat) (kpis : List KpiDoc) (client_id : String)
    (msgs : List Msg) : Nat → RunResult
  | 0 => .outOfFuel msgs
  | fuel + 1 =>
    match oracle (buildRequest client_id msgs) with
    | .error e => .failed e
    | .ok (content, calls) =>
      let msgs1 := msgs ++ [Msg.ai content calls]
      if calls.isEmpty then .done msgs1
      else runLoop oracle now kpis client_id (msgs1 ++ toolResults now kpis calls) fuel

/-! ### Session Store (`app/services/mongo.py`) -/

/-- The Mongo state visible to the engine: registered client ids
(`db.clients`), per-session active client id (`db.sessions`), the append-only
message log (`db.messages`, entries `(session_id, role, content)`), and the
KPI documents (`db.kpis`). -/
structure Store where
  clients : List String
  sessions : List (String × String)
  messageLog : List (String × String × String)
  kpis : List KpiDoc
deriving DecidableEq, Repr

/-- `get_active_client_id`: the stored id for the session, `""` when the
session document is missing. -/
def get_active_client_id (store : Store) (session_id : String) : String :=
  ((store.sessions.lookup session_id).getD "")

/-- Upsert of the sessions collection (`update_one` with `upsert=True`). -/
def upsertSession (sessions : List (String × String)) (sid cid : String) :
    List (String × String) :=
  match sessions with
  | [] => [(sid, cid)]
  | (k, v) :: rest =>
    if k == sid then (sid, cid) :: rest else (k, v) :: upsertSession rest sid cid

/-- `set_active_client_id`: refuses (returns `False`, writes nothing) when
the client id is not in `db.clients`; otherwise upserts the session record. -/
def set_active_client_id (store : Store) (session_id client_id : String) : Bool × Store :=
  if !(store.clients.contains client_id) then (false, store)
  else (true, { store with sessions := upsertSession store.sessions session_id client_id })

/-- `add_message`: append one `(session_id, role, content)` record. -/
def add_message (store : Store) (session_id role content : String) : Store :=
  { store with messageLog := store.messageLog ++ [(session_id, role, content)] }

/-! ### `GraphWrapper.invoke` -/

/-- One entry of the caller-facing history: `{"type": ..., "content": ...}`. -/
structure HistEntry where
  type : String
  content : String
deriving DecidableEq, Repr

/-- History rebuild of `invoke`: `"human"` entries become `HumanMessage`,
`"ai"` entries become `AIMessage`, anything else is skipped. -/
def rebuildMessages (history : List HistEntry) : List Msg :=
  history.filterMap (fun m =>
    if m.type == "human" then some (Msg.human m.content)
    else if m.type == "ai" then some (Msg.ai m.content [])
    else none)

/-- `messages.append(HumanMessage(query)); messages = messages[-10:]`:
the rebuilt history with the new human message appended, truncated to the
most recent 10. -/
def windowMessages (history : List HistEntry) (query : String) : List Msg :=
  let l := rebuildMessages history ++ [Msg.human query]
  l.drop (l.length - 10)

/-- `" ".join(str(m.content) for m in messages)`. -/
def joinedContents (msgs : List Msg) : String :=
  String.intercalate " " (msgs.map Msg.contentOf)

/-- The write-back step of `invoke`:
`if effective_client_id: set_active_client_id(session_key, effective_client_id)`
(the returned Boolean is discarded). -/
def persistActive (store : Store) (session_key effective : String) : Store :=
  if effective ≠ "" then (set_active_client_id store session_key effective).2 else store

/-- The fixed fallback answer of `invoke`. -/
def fallbackAnswer : String := "Sorry, I encountered an issue. Could you rephrase?"

/-- The final `updated_history` projection of `invoke`: `HumanMessage` ↦
`"human"` entry, `AIMessage` ↦ `"ai"` entry, everything else dropped. -/
def toHistEntry : Msg → Option HistEntry
  | .human c => some ⟨"human", c⟩
  | .ai c _ => some ⟨"ai", c⟩
  | _ => none

/-- `GraphWrapper.invoke`.  Store effects thread explicitly; a backend
exception escapes as `Except.error` (the source has no handler around
`self.graph.invoke`), with the store reflecting every write performed before
the exception.  `fuel` is the executor's iteration budget; its exhaustion is
the executor's recursion-limit abort, likewise an error.  `client_id` and
`session_id` model the optional parameters, with `""` for `None` (Python
truthiness makes them behave alike). -/
def invoke (oracle : Oracle) (now fuel : Nat) (query : String) (history : List HistEntry)
    (client_id session_id : String) (store : Store) :
    Except String (String × List HistEntry) × Store :=
  let session_key := if session_id ≠ "" then session_id else "default_session"
  let messages := windowMessages history query
  let effective :=
    resolveId client_id (get_active_client_id store session_key) (joinedContents messages)
  let store1 := persistActive store session_key effective
  let store2 := add_message store1 session_key "human" query
  match runLoop oracle now store2.kpis effective messages fuel with
  | .failed e => (.error e, store2)
  | .outOfFuel _ => (.error "GraphRecursionError", store2)
  | .done finalMsgs =>
    let answer :=
      match finalMsgs.getLast? with
      | some m => if m.hasToolCalls then fallbackAnswer else m.contentOf
      | none => fallbackAnswer
    let store3 := add_message store2 session_key "ai" answer
    (.ok (answer, finalMsgs.filterMap toHistEntry), store3)

/-! ## Theorems -/

/-- For the empty string, stripping is the identity (used to collapse the
Python truthiness conjunct `y and y.strip()`). -/
theorem pyStrip_ne_empty_of {y : String} (h : pyStrip y ≠ "") : y ≠ "" := by
  intro he
  subst he
  exact h rfl

/-- C5: the entity-id merge returns the new value exactly when it is
non-empty after stripping whitespace, and the old value otherwise. -/
theorem c5_merge_right_biased (x y : String) :
    (pyStrip y ≠ "" → prefer_new_nonempty x y = y) ∧
    (pyStrip y = "" → prefer_new_nonempty x y = x) := by
  constructor
  · intro h
    have hy : y ≠ "" := pyStrip_ne_empty_of h
    simp [prefer_new_nonempty, hy, h]
  · intro h
    simp [prefer_new_nonempty, h]

/-- C5 witness: the merge at concrete inputs — a whitespace-padded but
non-empty new value wins; a purely-whitespace new value keeps the old. -/
theorem c5_witness :
    prefer_new_nonempty "old" " new1 " = " new1 " ∧
    prefer_new_nonempty "old" "   " = "old" :=
  ⟨(c5_merge_right_biased "old" " new1 ").1 (by decide),
   (c5_merge_right_biased "old" "   ").2 (by decide)⟩

/-- C1: identity-resolution precedence — a non-empty (after stripping)
explicit id resolves to itself regardless of the session store and of any
text-heuristic match; with the explicit id empty and a non-empty stored id,
the stored id wins regardless of the message text. -/
theorem c1_identity_precedence (explicit stored text : String) :
    (pyStrip explicit ≠ "" → resolveId explicit stored text = pyStrip explicit) ∧
    (pyStrip explicit = "" → stored ≠ "" → resolveId explicit stored text = stored) := by
  constructor
  · intro h
    simp [resolveId, h]
  · intro h hs
    simp [resolveId, h, hs]

/-- C1 witness: a supplied explicit id beats a stored id and an id-like text
token; with no explicit id, the stored `"client9"` beats the text token. -/
theorem c1_witness :
    resolveId " client7 " "client9" "please check client42" = "client7" ∧
    resolveId "" "client9" "please check client42" = "client9" :=
  ⟨(c1_identity_precedence " client7 " "client9" "please check client42").1 (by decide),
   (c1_identity_precedence "" "client9" "please check client42").2 (by decide) (by decide)⟩

/-- C4 counterexample: on `"show churn for client42 please"` with no explicit
and no stored id, the heuristic returns `"show"` — the first token of at
least 4 identifier characters — not `"client42"`. -/
theorem c4_counterexample :
    resolveId "" "" "show churn for client42 please" = "show" ∧
    ("show" : String) ≠ "client42" := by
  constructor
  · decide
  · decide

/-- C4 amended: the heuristic returns the first token of the concatenated
contents matching the identifier pattern (length ≥ 4); for the input
`"show churn for client42 please"` that first qualifying token is `"show"`,
which is what resolution yields. -/
theorem c4_amended :
    extractClientId "show churn for client42 please" = some "show" ∧
    resolveId "" "" "show churn for client42 please" = "show" := by
  constructor
  · decide
  · decide

/-- A store with one registered client and no sessions, for concrete runs. -/
def storeC2 : Store := { clients := ["client1"], sessions := [], messageLog := [], kpis := [] }

/-- A backend that answers directly with no tool calls. -/
def plainOracle : Oracle := fun _ => Except.ok ("Hello!", [])

/-- Upserting a session record makes the lookup for that session return the
written client id. -/
theorem lookup_upsertSession (sessions : List (String × String)) (sid cid : String) :
    (upsertSession sessions sid cid).lookup sid = some cid := by
  induction sessions with
  | nil => simp [upsertSession, List.lookup]
  | cons p rest ih =>
    obtain ⟨k, v⟩ := p
    by_cases h : k = sid
    · simp [upsertSession, h, List.lookup]
    · have h2 : (sid == k) = false := beq_eq_false_iff_ne.mpr (Ne.symm h)
      simp [upsertSession, h, List.lookup, h2, ih]

/-- The pre-loop write-back never touches the message log. -/
theorem persistActive_messageLog (store : Store) (k e : String) :
    (persistActive store k e).messageLog = store.messageLog := by
  by_cases h : e ≠ ""
  · simp only [persistActive, if_pos h, set_active_client_id]
    by_cases hc : e ∈ store.clients <;> simp [hc]
  · simp [persistActive, h]

/-- The pre-loop write-back never touches the KPI collection. -/
theorem persistActive_kpis (store : Store) (k e : String) :
    (persistActive store k e).kpis = store.kpis := by
  by_cases h : e ≠ ""
  · simp only [persistActive, if_pos h, set_active_client_id]
    by_cases hc : e ∈ store.clients <;> simp [hc]
  · simp [persistActive, h]

/-- Appending to the message log never touches the sessions collection. -/
theorem add_message_sessions (store : Store) (sid role content : String) :
    (add_message store sid role content).sessions = store.sessions := rfl

/-- C2 counterexample: a non-empty resolved id that is unknown to the clients
collection is NOT written to the Session Store — `invoke` with explicit id
`"ghost99"` (resolved unchanged) leaves the sessions collection empty,
because `set_active_client_id` validates against `db.clients` and refuses. -/
theorem c2_counterexample :
    resolveId "ghost99" (get_active_client_id storeC2 "s1")
      (joinedContents (windowMessages [] "hello")) = "ghost99" ∧
    (invoke plainOracle 0 5 "hello" [] "ghost99" "s1" storeC2).2.sessions = [] := by
  constructor
  · decide
  · decide

/-- C2 amended: a non-empty resolved id triggers a Session-Store write
attempt before the loop, but the write happens only when the id is
registered in the clients collection; an unknown id leaves the store
unchanged (the returned `False` is discarded), and an empty resolution
attempts nothing.  The sessions collection after a full `invoke` is exactly
what this pre-loop step produced, for any backend outcome. -/
theorem c2_amended (store : Store) (key id : String) :
    (id ≠ "" → id ∈ store.clients →
      (persistActive store key id).sessions.lookup key = some id) ∧
    (id ∉ store.clients → persistActive store key id = store) ∧
    (persistActive store key "" = store) ∧
    (∀ (oracle : Oracle) (now fuel : Nat) (q : String) (hist : List HistEntry) (sid : String),
      (invoke oracle now fuel q hist id sid store).2.sessions =
        (persistActive store (if sid ≠ "" then sid else "default_session")
          (resolveId id
            (get_active_client_id store (if sid ≠ "" then sid else "default_session"))
            (joinedContents (windowMessages hist q)))).sessions) := by
  refine ⟨?_, ?_, ?_, ?_⟩
  · intro hne hc
    simp [persistActive, hne, set_active_client_id, hc, lookup_upsertSession]
  · intro hc
    by_cases hne : id = ""
    · simp [persistActive, hne]
    · simp [persistActive, hne, set_active_client_id, hc]
  · simp [persistActive]
  · intro oracle now fuel q hist sid
    unfold invoke
    split <;> (dsimp only; split <;> rfl)

/-- C2 witness: at a concrete store, a registered id is written for the
session, an unregistered id leaves the store unchanged. -/
theorem c2_witness :
    (persistActive storeC2 "s1" "client1").sessions.lookup "s1" = some "client1" ∧
    persistActive storeC2 "s1" "ghost42" = storeC2 :=
  ⟨(c2_amended storeC2 "s1" "client1").1 (by decide) (by decide),
   (c2_amended storeC2 "s1" "ghost42").2.1 (by decide)⟩

/-- Whether `invoke` returned normally (`true`) or let an exception escape
to the caller (`false`). -/
def isNormal : Except String (String × List HistEntry) → Bool
  | .ok _ => true
  | .error _ => false

/-- A backend whose every call fails with exception text `e`
(connection failure or timeout raised by the inference client). -/
def failingOracle (e : String) : Oracle := fun _ => Except.error e

/-- C3 counterexample: with a backend that times out on the first Decision
Step, `invoke` does NOT return normally with the fallback answer — the
exception escapes to the caller (the source wraps `self.graph.invoke` in no
handler), so no answer and no updated history are produced. -/
theorem c3_counterexample :
    (invoke (failingOracle "ReadTimeout") 0 5 "What churn?" [] "" "" storeC2).1 =
      Except.error "ReadTimeout" ∧
    isNormal (invoke (failingOracle "ReadTimeout") 0 5 "What churn?" [] "" "" storeC2).1 =
      false := by
  constructor
  · rfl
  · rfl

/-- C3 amended: a backend failure during DECIDING propagates out of `invoke`
as the raised error (never a normal return, hence not the fallback answer —
that string is produced only when the loop completes without a usable final
assistant message); the turn's human message, persisted before the backend
call, is nevertheless present in the Session Store's message log. -/
theorem c3_amended (e : String) (now fuel : Nat) (q : String) (hist : List HistEntry)
    (cid sid : String) (store : Store) :
    isNormal (invoke (failingOracle e) now fuel q hist cid sid store).1 = false ∧
    ((if sid ≠ "" then sid else "default_session"), "human", q) ∈
      (invoke (failingOracle e) now fuel q hist cid sid store).2.messageLog := by
  have hlog : ∀ st : Store, ((if sid ≠ "" then sid else "default_session"), "human", q) ∈
      (add_message st (if sid ≠ "" then sid else "default_session") "human" q).messageLog := by
    intro st
    simp [add_message]
  cases fuel with
  | zero =>
    constructor
    · simp [invoke, runLoop, isNormal]
    · simpa [invoke, runLoop] using hlog _
  | succ n =>
    constructor
    · simp [invoke, runLoop, failingOracle, isNormal]
    · simpa [invoke, runLoop, failingOracle] using hlog _

/-- C6: history windowing — the sequence handed to the orchestration loop is
the rebuilt prior history with the new human message appended and truncated
to the most recent 10 (`messages[-10:]`); whenever that sequence exceeds 10
messages, exactly the last 10 are kept, in original order. -/
theorem c6_history_window (history : List HistEntry) (q : String) :
    windowMessages history q =
      (rebuildMessages history ++ [Msg.human q]).drop
        ((rebuildMessages history ++ [Msg.human q]).length - 10) ∧
    (10 < (rebuildMessages history ++ [Msg.human q]).length →
      (windowMessages history q).length = 10 ∧
      ∀ i, i < 10 →
        (windowMessages history q)[i]? =
          (rebuildMessages history ++ [Msg.human q])[
            (rebuildMessages history ++ [Msg.human q]).length - 10 + i]?) := by
  refine ⟨rfl, ?_⟩
  intro h
  constructor
  · show ((rebuildMessages history ++ [Msg.human q]).drop _).length = 10
    rw [List.length_drop]
    exact Nat.sub_sub_self (Nat.le_of_lt h)
  · intro i hi
    show ((rebuildMessages history ++ [Msg.human q]).drop _)[i]? = _
    rw [List.getElem?_drop]

/-- An 11-entry prior history, for the windowing witness. -/
def hist11 : List HistEntry := List.replicate 11 ⟨"human", "m"⟩

/-- C6 witness: with 11 prior human entries plus the new message (12 total),
the window keeps exactly 10, and its first element is the 3rd of the full
sequence. -/
theorem c6_witness :
    (windowMessages hist11 "q").length = 10 ∧
    (windowMessages hist11 "q")[0]? =
      (rebuildMessages hist11 ++ [Msg.human "q"])[
        (rebuildMessages hist11 ++ [Msg.human "q"]).length - 10 + 0]? :=
  ⟨((c6_history_window hist11 "q").2 (by decide)).1,
   ((c6_history_window hist11 "q").2 (by decide)).2 0 (by decide)⟩

/-- C7: loop step structure — when the Decision Step returns an assistant
message with no tool calls, the loop reaches the terminal state right after
that single step; when it returns `k` tool calls, exactly `k` tool-result
messages are appended after the assistant message, in call order and each
keyed by its originating call id, before the next Decision Step runs. -/
theorem c7_loop_step (oracle : Oracle) (now : Nat) (kpis : List KpiDoc) (cid : String)
    (msgs : List Msg) (fuel : Nat) (content : String) (calls : List ToolCall)
    (h : oracle (buildRequest cid msgs) = Except.ok (content, calls)) :
    (calls = [] →
      runLoop oracle now kpis cid msgs (fuel + 1) = .done (msgs ++ [Msg.ai content []])) ∧
    (calls ≠ [] →
      runLoop oracle now kpis cid msgs (fuel + 1) =
        runLoop oracle now kpis cid
          (msgs ++ [Msg.ai content calls] ++ toolResults now kpis calls) fuel) ∧
    (toolResults now kpis calls).length = calls.length ∧
    (∀ i, (hi : i < calls.length) →
      (toolResults now kpis calls)[i]? =
        some (Msg.toolResult (calls[i].id) (dispatch now kpis (calls[i])))) := by
  refine ⟨?_, ?_, ?_, ?_⟩
  · intro hc
    subst hc
    simp [runLoop, h]
  · intro hc
    have he : calls.isEmpty = false := by
      cases calls with
      | nil => exact absurd rfl hc
      | cons a l => rfl
    simp [runLoop, h, he, List.append_assoc]
  · simp [toolResults]
  · intro i hi
    simp [toolResults, List.getElem?_map, List.getElem?_eq_getElem hi]

/-- A backend requesting two tool calls on its first Decision Step. -/
def twoCallOracle : Oracle := fun _ =>
  Except.ok ("", [⟨"call_a", "get_saas_kpi_summary", ToolArgs.clientOnly "client1"⟩,
                  ⟨"call_b", "get_kpi_trend_analysis", ToolArgs.clientKpi "client1" "churn_rate"⟩])

/-- C7 witness: a no-tool-call reply terminates in one step; a two-call reply
appends exactly two correlated tool results before the next step. -/
theorem c7_witness :
    runLoop plainOracle 0 [] "client1" [] 1 = .done ([] ++ [Msg.ai "Hello!" []]) ∧
    runLoop twoCallOracle 0 [] "client1" [] 1 =
      runLoop twoCallOracle 0 [] "client1"
        ([] ++ [Msg.ai ""
            [⟨"call_a", "get_saas_kpi_summary", ToolArgs.clientOnly "client1"⟩,
             ⟨"call_b", "get_kpi_trend_analysis", ToolArgs.clientKpi "client1" "churn_rate"⟩]] ++
          toolResults 0 []
            [⟨"call_a", "get_saas_kpi_summary", ToolArgs.clientOnly "client1"⟩,
             ⟨"call_b", "get_kpi_trend_analysis", ToolArgs.clientKpi "client1" "churn_rate"⟩]) 0 ∧
    (toolResults 0 []
        [⟨"call_a", "get_saas_kpi_summary", ToolArgs.clientOnly "client1"⟩,
         ⟨"call_b", "get_kpi_trend_analysis", ToolArgs.clientKpi "client1" "churn_rate"⟩]).length = 2 ∧
    (toolResults 0 []
        [⟨"call_a", "get_saas_kpi_summary", ToolArgs.clientOnly "client1"⟩,
         ⟨"call_b", "get_kpi_trend_analysis", ToolArgs.clientKpi "client1" "churn_rate"⟩])[1]? =
      some (Msg.toolResult "call_b"
        (dispatch 0 [] ⟨"call_b", "get_kpi_trend_analysis", ToolArgs.clientKpi "client1" "churn_rate"⟩)) :=
  ⟨(c7_loop_step plainOracle 0 [] "client1" [] 0 "Hello!" [] rfl).1 rfl,
   (c7_loop_step twoCallOracle 0 [] "client1" [] 0 ""
      [⟨"call_a", "get_saas_kpi_summary", ToolArgs.clientOnly "client1"⟩,
       ⟨"call_b", "get_kpi_trend_analysis", ToolArgs.clientKpi "client1" "churn_rate"⟩] rfl).2.1
     (by simp),
   (c7_loop_step twoCallOracle 0 [] "client1" [] 0 ""
      [⟨"call_a", "get_saas_kpi_summary", ToolArgs.clientOnly "client1"⟩,
       ⟨"call_b", "get_kpi_trend_analysis", ToolArgs.clientKpi "client1" "churn_rate"⟩] rfl).2.2.1,
   (c7_loop_step twoCallOracle 0 [] "client1" [] 0 ""
      [⟨"call_a", "get_saas_kpi_summary", ToolArgs.clientOnly "client1"⟩,
       ⟨"call_b", "get_kpi_trend_analysis", ToolArgs.clientKpi "client1" "churn_rate"⟩] rfl).2.2.2 1
     (by decide)⟩

/-- A backend that keeps requesting a tool call at every Decision Step. -/
def alwaysToolOracle : Oracle := fun _ =>
  Except.ok ("", [⟨"t1", "get_saas_kpi_summary", ToolArgs.clientOnly "client1"⟩])

/-- Against a perpetually tool-calling backend, the loop consumes any finite
budget without ever producing a terminal answer. -/
theorem alwaysTool_outOfFuel (now : Nat) (kpis : List KpiDoc) (cid : String) :
    ∀ (fuel : Nat) (msgs : List Msg),
      ∃ m, runLoop alwaysToolOracle now kpis cid msgs fuel = .outOfFuel m := by
  intro fuel
  induction fuel with
  | zero => exact fun msgs => ⟨msgs, rfl⟩
  | succ n ih =>
    intro msgs
    simpa [runLoop, alwaysToolOracle] using
      ih (msgs ++ [Msg.ai "" [⟨"t1", "get_saas_kpi_summary", ToolArgs.clientOnly "client1"⟩]] ++
        toolResults now kpis [⟨"t1", "get_saas_kpi_summary", ToolArgs.clientOnly "client1"⟩])

/-- C8 counterexample: exhausting the iteration budget is NOT "a terminal
failure returning a user-facing fallback message" — at a concrete budget of
25 with a backend that always requests tools, `invoke` does not return
normally at all (the executor's recursion abort escapes as an error). -/
theorem c8_counterexample :
    isNormal (invoke alwaysToolOracle 0 25 "show KPIs" [] "client1" "s1" storeC2).1 = false := by
  rfl

/-- C8 amended: the repository's loop code imposes no maximum iteration
count of its own — for every finite iteration budget, a decision step that
keeps requesting tools exhausts the budget without reaching a terminal
answer, and `invoke` then surfaces the executor's recursion abort as an
error to the caller rather than returning the user-facing fallback
message. -/
theorem c8_amended (now : Nat) (kpis : List KpiDoc) (cid : String) :
    (∀ (fuel : Nat) (msgs : List Msg),
      ∃ m, runLoop alwaysToolOracle now kpis cid msgs fuel = .outOfFuel m) ∧
    (∀ (fuel : Nat) (q : String) (hist : List HistEntry) (sid : String) (store : Store),
      isNormal (invoke alwaysToolOracle now fuel q hist cid sid store).1 = false) := by
  refine ⟨alwaysTool_outOfFuel now kpis cid, ?_⟩
  intro fuel q hist sid store
  unfold invoke
  dsimp only
  obtain ⟨m, hm⟩ := alwaysTool_outOfFuel now
    (add_message
      (persistActive store (if sid ≠ "" then sid else "default_session")
        (resolveId cid
          (get_active_client_id store (if sid ≠ "" then sid else "default_session"))
          (joinedContents (windowMessages hist q))))
      (if sid ≠ "" then sid else "default_session") "human" q).kpis
    (resolveId cid
      (get_active_client_id store (if sid ≠ "" then sid else "default_session"))
      (joinedContents (windowMessages hist q)))
    fuel (windowMessages hist q)
  rw [hm]
  rfl

/-- A monitoring item with its construction timestamp scrubbed. -/
def eraseUpdatedAt (it : MonitoringItem) : MonitoringItem :=
  { it with updated_at := 0 }

/-- A KPI document for the idempotence analysis. -/
def kpiDocA : KpiDoc := ⟨"client1", "2025-09-01", 12000, 3/100, 800⟩

/-- The row expansion ignores the clock except for the `updated_at` stamp. -/
theorem monitoringRows_erase (now now2 : Nat) (prev : Option Rat) (docs : List KpiDoc) :
    (monitoringRows now prev docs).map eraseUpdatedAt =
      (monitoringRows now2 prev docs).map eraseUpdatedAt := by
  induction docs generalizing prev with
  | nil => rfl
  | cons d rest ih => simp [monitoringRows, eraseUpdatedAt, ih]

/-- C9 counterexample: the detailed-listing tool is not idempotent as stated
— two invocations with identical arguments and unchanged backing data, made
at successive clock instants (`datetime.now()` has advanced between them),
return different payloads, because every `MonitoringItem` is stamped with a
fresh `updated_at`. -/
theorem c9_counterexample :
    dispatch 0 [kpiDocA] ⟨"t1", "get_detailed_kpi_data", ToolArgs.clientOnly "client1"⟩ ≠
      dispatch 1 [kpiDocA] ⟨"t1", "get_detailed_kpi_data", ToolArgs.clientOnly "client1"⟩ := by
  decide

/-- C9 amended: the summary, anomaly-detection and trend-analysis tools are
idempotent — their results do not depend on the invocation instant at all —
and the detailed-listing tool is idempotent in every field except
`updated_at`, which carries the wall clock at item construction. -/
theorem c9_amended (now now2 : Nat) (kpis : List KpiDoc) (tcid cid kpi : String) :
    dispatch now kpis ⟨tcid, "get_saas_kpi_summary", ToolArgs.clientOnly cid⟩ =
      dispatch now2 kpis ⟨tcid, "get_saas_kpi_summary", ToolArgs.clientOnly cid⟩ ∧
    dispatch now kpis ⟨tcid, "detect_business_anomalies", ToolArgs.clientOnly cid⟩ =
      dispatch now2 kpis ⟨tcid, "detect_business_anomalies", ToolArgs.clientOnly cid⟩ ∧
    dispatch now kpis ⟨tcid, "get_kpi_trend_analysis", ToolArgs.clientKpi cid kpi⟩ =
      dispatch now2 kpis ⟨tcid, "get_kpi_trend_analysis", ToolArgs.clientKpi cid kpi⟩ ∧
    (get_client_monitoring_data now kpis cid).map eraseUpdatedAt =
      (get_client_monitoring_data now2 kpis cid).map eraseUpdatedAt := by
  refine ⟨rfl, rfl, rfl, ?_⟩
  unfold get_client_monitoring_data
  by_cases h : (fetchKpis kpis cid 5).isEmpty <;>
    simp [h, monitoringRows_erase now now2]

/-- The updated history of a normal return; an escaped exception yields
no history. -/
def historyOf : Except String (String × List HistEntry) → List HistEntry
  | .ok (_, h) => h
  | .error _ => []

/-- The history projection only ever emits `"human"` and `"ai"` entries. -/
theorem filterMap_toHistEntry_types (msgs : List Msg) :
    (msgs.filterMap toHistEntry).all (fun e => e.type == "human" || e.type == "ai") = true := by
  induction msgs with
  | nil => rfl
  | cons m rest ih => cases m <;> simp [toHistEntry, List.filterMap_cons, ih]

/-- Whether a message is a human or an assistant message. -/
def isHumanOrAi : Msg → Bool
  | .human _ => true
  | .ai _ _ => true
  | _ => false

/-- Rebuilding the input history produces only human and assistant
messages: any other entry type is dropped. -/
theorem rebuildMessages_types (hist : List HistEntry) :
    (rebuildMessages hist).all isHumanOrAi = true := by
  induction hist with
  | nil => rfl
  | cons e rest ih =>
    by_cases h1 : e.type = "human"
    · simp [rebuildMessages, List.filterMap_cons, h1, isHumanOrAi] at ih ⊢
      exact ih
    · by_cases h2 : e.type = "ai"
      · simp [rebuildMessages, List.filterMap_cons, h1, h2, isHumanOrAi] at ih ⊢
        exact ih
      · simp [rebuildMessages, List.filterMap_cons, h1, h2, isHumanOrAi] at ih ⊢
        exact ih

/-- C10: every entry of the updated history returned by `invoke` has type
`"human"` or `"ai"` — tool-result messages are never projected into it
(`toHistEntry` drops them), and rebuilding the input history likewise keeps
only human and assistant messages. -/
theorem c10_history_types (oracle : Oracle) (now fuel : Nat) (q : String)
    (hist : List HistEntry) (cid sid : String) (store : Store) :
    (historyOf (invoke oracle now fuel q hist cid sid store).1).all
      (fun e => e.type == "human" || e.type == "ai") = true ∧
    (∀ tcid r, toHistEntry (Msg.toolResult tcid r) = none) ∧
    (rebuildMessages hist).all isHumanOrAi = true := by
  refine ⟨?_, fun _ _ => rfl, rebuildMessages_types hist⟩
  unfold invoke
  dsimp only
  split
  · rfl
  · rfl
  · exact filterMap_toHistEntry_types _

end CommandWall
